import Mathlib

/-!
# Reconciliation core of the KogitoRuntime controller

A shallow embedding of

* `controllers/kogitoruntime_controller.go`: `KogitoRuntimeReconciler.Reconcile`
  and the event predicate `pred` built in `SetupWithManager`;
* `test/framework/kogitobuild.go`: `getKogitoBuildImage` and its two callers.

Go values are embedded as follows.

* `error` is an interface value: `Option GoError`, `none` being `nil`.
* A pointer that may be `nil` is an `Option`.
* `time.Duration` is an `int64` count of nanoseconds: an `Int`. `Reconcile`
  only compares it with zero and copies it, so no overflow can occur.
* The collaborators of `Reconcile` (the runtime handler, the RBAC handler and
  the service deployer) are packages outside this file. They are fields of
  `KogitoRuntimeReconciler`; each one that may change the cluster takes the
  cluster state and returns the new one, and `Reconcile` records every call
  it makes, in order, in a trace.
-/

set_option linter.dupNamespace false

namespace RhpamKogito

/-! ## Go and Kubernetes value types -/

/-- A Go `error` value that is not `nil`, identified by its message. -/
abbrev GoError := String

/-- Go `time.Time`, by the two quantities `IsZero` reads: the seconds since
January 1, year 1 00:00:00 UTC and the nanoseconds within that second. -/
structure time.Time where
  sec : Int
  nsec : Nat
deriving DecidableEq, Repr

/-- Go `time.Duration`: nanoseconds. -/
abbrev time.Duration := Int

/-- Go `time.Second`. -/
def time.Second : time.Duration := 1000000000

/-- Go `func (t Time) IsZero() bool`: `t.sec() == 0 && t.nsec() == 0`. -/
def time.Time.IsZero (t : time.Time) : Bool :=
  t.sec == 0 && t.nsec == 0

/-- Kubernetes `metav1.Time`, a wrapper around `time.Time`. -/
structure metav1.Time where
  Time : time.Time
deriving DecidableEq, Repr

/-- Modelled from the spec: the deletion marker is "timestamp or absent" and the
filter speaks of a "non-zero deletion marker"; `func (t *Time) IsZero() bool` of
`k8s.io/apimachinery` is not under src/. A nil pointer is zero, any other
pointer is zero exactly when the wrapped instant is. -/
def metav1.Time.IsZero : Option metav1.Time → Bool
  | none => true
  | some t => t.Time.IsZero

/-- The part of `metav1.Object` the controller reads. -/
structure metav1.ObjectMeta where
  Name : String
  Namespace : String
  DeletionTimestamp : Option metav1.Time
deriving DecidableEq, Repr

/-- The accessor `GetDeletionTimestamp() *metav1.Time`. -/
def metav1.ObjectMeta.GetDeletionTimestamp (m : metav1.ObjectMeta) : Option metav1.Time :=
  m.DeletionTimestamp

/-- A `runtime.Object` payload carried by an event: its kind and its content. -/
structure runtime.Object where
  Kind : String
  Raw : String
deriving DecidableEq, Repr

/-- Kubernetes `types.NamespacedName`. -/
structure types.NamespacedName where
  Namespace : String
  Name : String
deriving DecidableEq, Repr

/-- The `ctrl.Request` of controller-runtime. -/
structure ctrl.Request where
  NamespacedName : types.NamespacedName
deriving DecidableEq, Repr

/-- The promoted field `req.Name`. -/
def ctrl.Request.Name (req : ctrl.Request) : String := req.NamespacedName.Name

/-- The promoted field `req.Namespace`. -/
def ctrl.Request.Namespace (req : ctrl.Request) : String := req.NamespacedName.Namespace

/-- The `ctrl.Result` of controller-runtime. Its Go zero value is
`Requeue = false`, `RequeueAfter = 0`. -/
structure ctrl.Result where
  Requeue : Bool
  RequeueAfter : time.Duration
deriving DecidableEq, Repr

/-- The Go zero value of `ctrl.Result`, which the named return value `result`
holds until it is assigned. -/
def ctrl.Result.zero : ctrl.Result := ⟨false, 0⟩

/-! ## Events and the predicate type of controller-runtime -/

/-- The `event.CreateEvent` of controller-runtime. -/
structure event.CreateEvent where
  Meta : metav1.ObjectMeta
  Object : runtime.Object
deriving DecidableEq, Repr

/-- The `event.UpdateEvent` of controller-runtime. The watch layer only builds an
update event once it has the metadata of both versions, so `MetaOld` and
`MetaNew` are never nil interfaces when a predicate runs. -/
structure event.UpdateEvent where
  MetaOld : metav1.ObjectMeta
  ObjectOld : runtime.Object
  MetaNew : metav1.ObjectMeta
  ObjectNew : runtime.Object
deriving DecidableEq, Repr

/-- The `event.DeleteEvent` of controller-runtime. -/
structure event.DeleteEvent where
  Meta : metav1.ObjectMeta
  Object : runtime.Object
  DeleteStateUnknown : Bool
deriving DecidableEq, Repr

/-- The `event.GenericEvent` of controller-runtime. -/
structure event.GenericEvent where
  Meta : metav1.ObjectMeta
  Object : runtime.Object
deriving DecidableEq, Repr

/-- The `predicate.Funcs` of controller-runtime: four optional functions, a field
left out of the struct literal being nil. -/
structure predicate.Funcs where
  CreateFunc : Option (event.CreateEvent → Bool)
  DeleteFunc : Option (event.DeleteEvent → Bool)
  UpdateFunc : Option (event.UpdateEvent → Bool)
  GenericFunc : Option (event.GenericEvent → Bool)

/-- Modelled from the spec: "Create notifications → always scheduled" for a filter
that sets no create function; `func (p Funcs) Create` of controller-runtime is
not under src/. It calls `CreateFunc` when that is set and allows the event
otherwise. -/
def predicate.Funcs.Create (p : predicate.Funcs) (e : event.CreateEvent) : Bool :=
  match p.CreateFunc with
  | some f => f e
  | none => true

/-! ## The event filter of `SetupWithManager` -/

/-- The function literal bound to `DeleteFunc` in `SetupWithManager`:
`return false`. -/
def SetupWithManager.DeleteFunc (_e : event.DeleteEvent) : Bool :=
  false

/-- The function literal bound to `UpdateFunc` in `SetupWithManager`:
`return e.MetaNew.GetDeletionTimestamp().IsZero()`. -/
def SetupWithManager.UpdateFunc (e : event.UpdateEvent) : Bool :=
  metav1.Time.IsZero e.MetaNew.GetDeletionTimestamp

/-- The struct literal `pred := predicate.Funcs{DeleteFunc: ..., UpdateFunc: ...}`
of `SetupWithManager`; `CreateFunc` and `GenericFunc` are not set. -/
def SetupWithManager.pred : predicate.Funcs where
  CreateFunc := none
  DeleteFunc := some SetupWithManager.DeleteFunc
  UpdateFunc := some SetupWithManager.UpdateFunc
  GenericFunc := none

/-! ## The data `Reconcile` handles -/

/-- The `api.RuntimeType` of the Kogito API: a string. -/
abbrev api.RuntimeType := String

/-- The `KogitoRuntimeSpec` of the fetched resource, by the one field the
controller reads: the runtime the user declared, empty when none is declared. -/
structure KogitoRuntimeSpec where
  Runtime : api.RuntimeType
deriving DecidableEq, Repr

/-- The fetched `KogitoRuntime` instance, by what the controller reads of it: its
metadata and its spec. `Reconcile` holds it through a pointer, so a method that
writes to it changes the instance every later statement sees. -/
structure KogitoRuntime where
  ObjectMeta : metav1.ObjectMeta
  Spec : KogitoRuntimeSpec
deriving DecidableEq, Repr

/-- Modelled from the spec: the runtime flavor is "an enum such as quarkus or
other supported runtimes"; the accessor
`func (k *KogitoRuntimeSpec) GetRuntime() api.RuntimeType` of the API package of
this repository is not under src/. When the declared `Runtime` is empty it
stores `api.QuarkusRuntimeType` in the spec; it returns the `Runtime` the spec
then holds. The result is the returned value and the spec after the call. -/
def KogitoRuntimeSpec.GetRuntime (QuarkusRuntimeType : api.RuntimeType)
    (k : KogitoRuntimeSpec) : api.RuntimeType × KogitoRuntimeSpec :=
  let k1 : KogitoRuntimeSpec :=
    if k.Runtime.length = 0 then { k with Runtime := QuarkusRuntimeType } else k
  (k1.Runtime, k1)

/-- Modelled from the spec: the chain `instance.GetSpec().GetRuntime()`, whose
`GetSpec` of the API package of this repository is not under src/ and returns
the pointer to the spec of the instance. The result is the value `GetRuntime`
returns and the instance after the call, its spec being the one `GetRuntime`
left. -/
def KogitoRuntime.GetRuntime (QuarkusRuntimeType : api.RuntimeType) (inst : KogitoRuntime) :
    api.RuntimeType × KogitoRuntime :=
  let got := inst.Spec.GetRuntime QuarkusRuntimeType
  (got.1, { inst with Spec := got.2 })

/-- The `kogitoservice.HealthCheckProbeType`: the two probe constants the
controller chooses between. -/
inductive kogitoservice.HealthCheckProbeType where
  | TCPHealthCheckProbe
  | QuarkusHealthCheckProbe
deriving DecidableEq, Repr

/-- The value `NewRuntimeDeployerHandler(context, instance, runtimeHandler)`
returns: the handler bound to the fetched instance. Its methods
`OnDeploymentCreate` and `OnGetComparators` become the two hooks of the
`ServiceDefinition`. -/
structure RuntimeDeployerHandler where
  inst : KogitoRuntime
deriving DecidableEq, Repr

/-- The constructor `NewRuntimeDeployerHandler`. -/
def NewRuntimeDeployerHandler (inst : KogitoRuntime) : RuntimeDeployerHandler :=
  ⟨inst⟩

/-- The `kogitoservice.ServiceDefinition` struct literal of `Reconcile`, field by
field. The two hooks are method values: each is given by the handler it is
bound to. -/
structure kogitoservice.ServiceDefinition where
  Request : ctrl.Request
  DefaultImageTag : String
  SingleReplica : Bool
  OnDeploymentCreate : RuntimeDeployerHandler
  OnGetComparators : RuntimeDeployerHandler
  CustomService : Bool
  HealthCheckProbe : kogitoservice.HealthCheckProbeType
deriving DecidableEq, Repr

/-- What one pass of `Reconcile` does that an observer can see, in order: its
log lines and its calls of the three collaborators, with their arguments. -/
inductive Step where
  | Info (msg : String) (name : String) (namespace_ : String)
  | Debug (msg : String) (name : String) (namespace_ : String)
  | FetchKogitoRuntimeInstance (key : types.NamespacedName)
  | SetupRBAC (namespace_ : String)
  | Deploy (definition : kogitoservice.ServiceDefinition) (inst : KogitoRuntime)
deriving DecidableEq, Repr

/-- Whether a step is a call of `SetupRBAC`. -/
def Step.isSetupRBAC : Step → Bool
  | .SetupRBAC _ => true
  | _ => false

/-- Whether a step is a call of `Deploy`. -/
def Step.isDeploy : Step → Bool
  | .Deploy _ _ => true
  | _ => false

/-- The reconciler with what it depends on, over a cluster state `σ`.

* `QuarkusRuntimeType` is the constant `api.QuarkusRuntimeType` and `LatestTag`
  the constant `infrastructure.LatestTag`, both of packages outside src/.
* `FetchKogitoRuntimeInstance` is the method of
  `internal.NewKogitoRuntimeHandler(context)`; it returns `(instance, err)`. It
  reads the cluster and leaves it as it is: the specification has dependent
  objects mutated only by the provisioner and the delegate.
* `SetupRBAC` is the method of `infrastructure.NewRBACHandler(context)`; it
  returns `err` and the cluster state it leaves.
* `Deploy` is the method of
  `kogitoservice.NewServiceDeployer(context, definition, instance, nil)`; it
  returns `(requeueAfter, err)` and the cluster state it leaves. -/
structure KogitoRuntimeReconciler (σ : Type) where
  QuarkusRuntimeType : api.RuntimeType
  LatestTag : String
  FetchKogitoRuntimeInstance : types.NamespacedName → σ → Option KogitoRuntime × Option GoError
  SetupRBAC : String → σ → Option GoError × σ
  Deploy : kogitoservice.ServiceDefinition → KogitoRuntime → σ →
    (time.Duration × Option GoError) × σ

/-- What a pass returns and leaves behind: the two named return values `result`
and `err`, the steps it took, and the cluster state after it. -/
structure Pass (σ : Type) where
  result : ctrl.Result
  err : Option GoError
  trace : List Step
  cluster : σ

/-- The probe selection of `Reconcile`:
`healthCheckProbeType := kogitoservice.TCPHealthCheckProbe`, replaced by
`kogitoservice.QuarkusHealthCheckProbe` when
`instance.GetSpec().GetRuntime() == api.QuarkusRuntimeType`. -/
def KogitoRuntimeReconciler.healthCheckProbeType {σ : Type} (r : KogitoRuntimeReconciler σ)
    (inst : KogitoRuntime) : kogitoservice.HealthCheckProbeType :=
  if (inst.GetRuntime r.QuarkusRuntimeType).1 = r.QuarkusRuntimeType then
    kogitoservice.HealthCheckProbeType.QuarkusHealthCheckProbe
  else
    kogitoservice.HealthCheckProbeType.TCPHealthCheckProbe

/-- The instance `Reconcile` holds once the probe selection has called
`instance.GetSpec().GetRuntime()` on the fetched `inst`: the one the deployer
handler is bound to and `Deploy` receives. -/
def KogitoRuntimeReconciler.afterGetRuntime {σ : Type} (r : KogitoRuntimeReconciler σ)
    (inst : KogitoRuntime) : KogitoRuntime :=
  (inst.GetRuntime r.QuarkusRuntimeType).2

/-- The struct literal `definition := kogitoservice.ServiceDefinition{...}` of
`Reconcile`, for the fetched `inst`: the probe is the one selected from it, and
the handler of the two hooks is built after that selection. -/
def KogitoRuntimeReconciler.definition {σ : Type} (r : KogitoRuntimeReconciler σ)
    (req : ctrl.Request) (inst : KogitoRuntime) : kogitoservice.ServiceDefinition where
  Request := req
  DefaultImageTag := r.LatestTag
  SingleReplica := false
  OnDeploymentCreate := NewRuntimeDeployerHandler (r.afterGetRuntime inst)
  OnGetComparators := NewRuntimeDeployerHandler (r.afterGetRuntime inst)
  CustomService := true
  HealthCheckProbe := r.healthCheckProbeType inst

/-- The method `func (r *KogitoRuntimeReconciler) Reconcile(req ctrl.Request)
(result ctrl.Result, err error)`, statement by statement. Every bare `return`
gives back the named values as they stand: `result` is the zero value until the
last `if` assigns it. -/
def KogitoRuntimeReconciler.Reconcile {σ : Type} (r : KogitoRuntimeReconciler σ)
    (req : ctrl.Request) (cluster : σ) : Pass σ :=
  let t0 : List Step := [Step.Info "Reconciling for KogitoRuntime" req.Name req.Namespace]
  -- fetch the requested instance
  let fetched := r.FetchKogitoRuntimeInstance req.NamespacedName cluster
  let t1 := t0 ++ [Step.FetchKogitoRuntimeInstance req.NamespacedName]
  match fetched.2 with
  | some e => ⟨ctrl.Result.zero, some e, t1, cluster⟩
  | none =>
    match fetched.1 with
    | none =>
      ⟨ctrl.Result.zero, none,
        t1 ++ [Step.Debug "KogitoRuntime instance not found" req.Name req.Namespace], cluster⟩
    | some inst =>
      let rbac := r.SetupRBAC req.Namespace cluster
      let t2 := t1 ++ [Step.SetupRBAC req.Namespace]
      match rbac.1 with
      | some e => ⟨ctrl.Result.zero, some e, t2, rbac.2⟩
      | none =>
        let definition := r.definition req inst
        let deployed := r.Deploy definition (r.afterGetRuntime inst) rbac.2
        let t3 := t2 ++ [Step.Deploy definition (r.afterGetRuntime inst)]
        let requeueAfter := deployed.1.1
        match deployed.1.2 with
        | some e => ⟨ctrl.Result.zero, some e, t3, deployed.2⟩
        | none =>
          if requeueAfter > 0 then
            ⟨⟨true, requeueAfter⟩, none,
              t3 ++ [Step.Info
                "Waiting for all resources to be created, scheduling for 30 seconds from now"
                req.Name req.Namespace],
              deployed.2⟩
          else
            ⟨ctrl.Result.zero, none, t3, deployed.2⟩

/-- The log line and the three calls of every pass that reaches `Deploy`, in order. -/
def stepsToDeploy {σ : Type} (r : KogitoRuntimeReconciler σ) (req : ctrl.Request)
    (inst : KogitoRuntime) : List Step :=
  [Step.Info "Reconciling for KogitoRuntime" req.Name req.Namespace,
   Step.FetchKogitoRuntimeInstance req.NamespacedName,
   Step.SetupRBAC req.Namespace,
   Step.Deploy (r.definition req inst) (r.afterGetRuntime inst)]

/-- The collaborator outcomes of a pass on a converged resource, at the cluster
state the pass starts from: the fetch returns the instance with a nil error,
`SetupRBAC` returns a nil error, `Deploy` returns a zero delay and a nil
error. -/
def KogitoRuntimeReconciler.Converged {σ : Type} (r : KogitoRuntimeReconciler σ)
    (req : ctrl.Request) (cluster : σ) (inst : KogitoRuntime) : Prop :=
  r.FetchKogitoRuntimeInstance req.NamespacedName cluster = (some inst, none) ∧
  (r.SetupRBAC req.Namespace cluster).1 = none ∧
  (r.Deploy (r.definition req inst) (r.afterGetRuntime inst)
          (r.SetupRBAC req.Namespace cluster).2).1 = (0, none)

/-- The cluster state the two mutating calls of a full pass leave: the one
`Deploy` returns, started from the one `SetupRBAC` returns. -/
def KogitoRuntimeReconciler.afterCalls {σ : Type} (r : KogitoRuntimeReconciler σ)
    (req : ctrl.Request) (cluster : σ) (inst : KogitoRuntime) : σ :=
  (r.Deploy (r.definition req inst) (r.afterGetRuntime inst)
          (r.SetupRBAC req.Namespace cluster).2).2

/-- The interval the log line of `Reconcile` names: thirty seconds. -/
def thirtySeconds : time.Duration := 30 * time.Second

/-! ## The build image of the test framework -/

/-- The `api.Image` of the Kogito API. -/
structure api.Image where
  Domain : String
  Namespace : String
  Name : String
  Tag : String
deriving DecidableEq, Repr

/-- The values the getters of the test `config` package return. -/
structure config where
  GetBuildImageRegistry : String
  GetBuildImageNamespace : String
  GetBuildImageVersion : String
  GetBuildImageNameSuffix : String
  GetBuildS2IImageStreamTag : String
  GetBuildRuntimeImageStreamTag : String
deriving DecidableEq, Repr

/-- The local `image` of `getKogitoBuildImage` at the point where it is handed to
`framework.ConvertImageToImageTag`: the struct literal sets `Domain`,
`Namespace` and `Tag` and leaves `Name` at its zero value, the empty string; the
`if` assigns `Name` when the configured suffix is not empty. -/
def getKogitoBuildImage.image (cfg : config) (imageName : String) : api.Image :=
  let image : api.Image :=
    { Domain := cfg.GetBuildImageRegistry
      Namespace := cfg.GetBuildImageNamespace
      Name := ""
      Tag := cfg.GetBuildImageVersion }
  -- Update image name with suffix if provided
  if cfg.GetBuildImageNameSuffix.length > 0 then
    { image with Name := imageName ++ "-" ++ cfg.GetBuildImageNameSuffix }
  else
    image

/-- The function `getKogitoBuildImage`; `ConvertImageToImageTag` is the function
of the `framework` package of the Kogito operator, outside src/. -/
def getKogitoBuildImage (ConvertImageToImageTag : api.Image → String) (cfg : config)
    (imageName : String) : String :=
  ConvertImageToImageTag (getKogitoBuildImage.image cfg imageName)

/-- The function `getKogitoBuildS2IImage`; `KogitoBuilderImage` is the constant
`infrastructure.KogitoBuilderImage`. -/
def getKogitoBuildS2IImage (ConvertImageToImageTag : api.Image → String)
    (KogitoBuilderImage : String) (cfg : config) : String :=
  if cfg.GetBuildS2IImageStreamTag.length > 0 then
    cfg.GetBuildS2IImageStreamTag
  else
    getKogitoBuildImage ConvertImageToImageTag cfg KogitoBuilderImage

/-- The function `getKogitoBuildRuntimeImage`; `native` is `kogitoBuild.Spec.Native`
and the two names are the constants `infrastructure.KogitoRuntimeNative` and
`infrastructure.KogitoRuntimeJVM`. -/
def getKogitoBuildRuntimeImage (ConvertImageToImageTag : api.Image → String)
    (KogitoRuntimeNative KogitoRuntimeJVM : String) (cfg : config) (native : Bool) : String :=
  if cfg.GetBuildRuntimeImageStreamTag.length > 0 then
    cfg.GetBuildRuntimeImageStreamTag
  else
    let imageName := if native then KogitoRuntimeNative else KogitoRuntimeJVM
    getKogitoBuildImage ConvertImageToImageTag cfg imageName

/-! ## Concrete inputs -/

/-- The request of the scenario of the specification: namespace `ns1`, name
`svc-a`. -/
def demoRequest : ctrl.Request := ⟨⟨"ns1", "svc-a"⟩⟩

/-- A `KogitoRuntime` named `svc-a` in `ns1`, not marked for deletion, whose
spec declares the given runtime. -/
def demoInstance (runtime : api.RuntimeType) : KogitoRuntime :=
  ⟨⟨"svc-a", "ns1", none⟩, ⟨runtime⟩⟩

/-- Create-if-absent on a cluster given as the list of the objects it holds. -/
def ensureObject (name : String) (cluster : List String) : List String :=
  if name ∈ cluster then cluster else cluster ++ [name]

/-- A reconciler over a cluster given as the list of its dependent objects, whose
collaborators answer with the given outcomes: `fetched` from the runtime
handler, `rbacErr` from the RBAC handler, which creates the service account of
the namespace if it is absent, and `deployed` from the service deployer, which
creates the deployment of the instance if it is absent. -/
def demoReconciler (fetched : Option KogitoRuntime × Option GoError) (rbacErr : Option GoError)
    (deployed : time.Duration × Option GoError) : KogitoRuntimeReconciler (List String) where
  QuarkusRuntimeType := "quarkus"
  LatestTag := "latest"
  FetchKogitoRuntimeInstance := fun _ _ => fetched
  SetupRBAC := fun ns cluster => (rbacErr, ensureObject ("serviceaccount/" ++ ns) cluster)
  Deploy := fun _ inst cluster =>
    (deployed, ensureObject ("deployment/" ++ inst.ObjectMeta.Name) cluster)

/-- An update event for `svc-a` whose old and new versions carry the given
deletion timestamps. -/
def demoUpdate (old new : Option metav1.Time) : event.UpdateEvent :=
  ⟨⟨"svc-a", "ns1", old⟩, ⟨"KogitoRuntime", "old"⟩, ⟨"svc-a", "ns1", new⟩, ⟨"KogitoRuntime", "new"⟩⟩

/-- A test configuration with the given build image name suffix. -/
def demoConfig (nameSuffix : String) : config where
  GetBuildImageRegistry := "quay.io"
  GetBuildImageNamespace := "kiegroup"
  GetBuildImageVersion := "1.0"
  GetBuildImageNameSuffix := nameSuffix
  GetBuildS2IImageStreamTag := ""
  GetBuildRuntimeImageStreamTag := ""

/-! ## Lemmas on one pass -/

section Pass

variable {σ : Type} (r : KogitoRuntimeReconciler σ) (req : ctrl.Request) (cluster : σ)

/-- A pass whose fetch fails returns right after the fetch. -/
theorem Reconcile_of_fetch_error (e : GoError)
    (hf : (r.FetchKogitoRuntimeInstance req.NamespacedName cluster).2 = some e) :
    r.Reconcile req cluster =
      ⟨ctrl.Result.zero, some e,
        [Step.Info "Reconciling for KogitoRuntime" req.Name req.Namespace,
         Step.FetchKogitoRuntimeInstance req.NamespacedName], cluster⟩ := by
  simp [KogitoRuntimeReconciler.Reconcile, hf]

/-- A pass whose fetch finds nothing returns right after the fetch. -/
theorem Reconcile_of_not_found
    (hf : r.FetchKogitoRuntimeInstance req.NamespacedName cluster = (none, none)) :
    r.Reconcile req cluster =
      ⟨ctrl.Result.zero, none,
        [Step.Info "Reconciling for KogitoRuntime" req.Name req.Namespace,
         Step.FetchKogitoRuntimeInstance req.NamespacedName,
         Step.Debug "KogitoRuntime instance not found" req.Name req.Namespace], cluster⟩ := by
  simp [KogitoRuntimeReconciler.Reconcile, hf]

/-- A pass whose `SetupRBAC` fails returns right after it. -/
theorem Reconcile_of_rbac_error (inst : KogitoRuntime) (e : GoError)
    (hf : r.FetchKogitoRuntimeInstance req.NamespacedName cluster = (some inst, none))
    (hr : (r.SetupRBAC req.Namespace cluster).1 = some e) :
    r.Reconcile req cluster =
      ⟨ctrl.Result.zero, some e,
        [Step.Info "Reconciling for KogitoRuntime" req.Name req.Namespace,
         Step.FetchKogitoRuntimeInstance req.NamespacedName,
         Step.SetupRBAC req.Namespace], (r.SetupRBAC req.Namespace cluster).2⟩ := by
  simp [KogitoRuntimeReconciler.Reconcile, hf, hr]

/-- A pass whose `Deploy` fails returns the error and the zero result. -/
theorem Reconcile_of_deploy_error (inst : KogitoRuntime) (e : GoError)
    (hf : r.FetchKogitoRuntimeInstance req.NamespacedName cluster = (some inst, none))
    (hr : (r.SetupRBAC req.Namespace cluster).1 = none)
    (hd : (r.Deploy (r.definition req inst) (r.afterGetRuntime inst)
          (r.SetupRBAC req.Namespace cluster).2).1.2
      = some e) :
    r.Reconcile req cluster =
      ⟨ctrl.Result.zero, some e, stepsToDeploy r req inst,
        (r.Deploy (r.definition req inst) (r.afterGetRuntime inst)
          (r.SetupRBAC req.Namespace cluster).2).2⟩ := by
  simp [KogitoRuntimeReconciler.Reconcile, stepsToDeploy, hf, hr, hd]

/-- A pass whose `Deploy` succeeds with a positive delay asks for a requeue after
that delay. -/
theorem Reconcile_of_deploy_positive (inst : KogitoRuntime) (d : time.Duration)
    (hf : r.FetchKogitoRuntimeInstance req.NamespacedName cluster = (some inst, none))
    (hr : (r.SetupRBAC req.Namespace cluster).1 = none)
    (hd : (r.Deploy (r.definition req inst) (r.afterGetRuntime inst)
          (r.SetupRBAC req.Namespace cluster).2).1
      = (d, none))
    (hpos : 0 < d) :
    r.Reconcile req cluster =
      ⟨⟨true, d⟩, none,
        stepsToDeploy r req inst ++ [Step.Info
          "Waiting for all resources to be created, scheduling for 30 seconds from now"
          req.Name req.Namespace],
        (r.Deploy (r.definition req inst) (r.afterGetRuntime inst)
          (r.SetupRBAC req.Namespace cluster).2).2⟩ := by
  simp [KogitoRuntimeReconciler.Reconcile, stepsToDeploy, hf, hr, hd, hpos]

/-- A pass whose `Deploy` succeeds with a delay that is not positive returns the
zero result. -/
theorem Reconcile_of_deploy_done (inst : KogitoRuntime) (d : time.Duration)
    (hf : r.FetchKogitoRuntimeInstance req.NamespacedName cluster = (some inst, none))
    (hr : (r.SetupRBAC req.Namespace cluster).1 = none)
    (hd : (r.Deploy (r.definition req inst) (r.afterGetRuntime inst)
          (r.SetupRBAC req.Namespace cluster).2).1
      = (d, none))
    (hle : d ≤ 0) :
    r.Reconcile req cluster =
      ⟨ctrl.Result.zero, none, stepsToDeploy r req inst,
        (r.Deploy (r.definition req inst) (r.afterGetRuntime inst)
          (r.SetupRBAC req.Namespace cluster).2).2⟩ := by
  have hnot : ¬ 0 < d := not_lt.mpr hle
  simp [KogitoRuntimeReconciler.Reconcile, stepsToDeploy, hf, hr, hd, hnot]

end Pass

/-! ## The event filter -/

/-- Claim C2. For every update event, `UpdateFunc` returns false when the new
version of the object carries a deletion timestamp that is not zero, returns
true when the deletion timestamp of the new version is nil or zero, and gives
the same answer on any two events whose new versions carry the same deletion
timestamp, whatever their old versions are. This function is the one the
predicate holds as its `UpdateFunc`. -/
theorem UpdateFunc_decides_on_new_deletion_timestamp (e : event.UpdateEvent) :
    (∀ t : metav1.Time, e.MetaNew.GetDeletionTimestamp = some t → t.Time.IsZero = false →
        SetupWithManager.UpdateFunc e = false) ∧
    (e.MetaNew.GetDeletionTimestamp = none → SetupWithManager.UpdateFunc e = true) ∧
    (∀ t : metav1.Time, e.MetaNew.GetDeletionTimestamp = some t → t.Time.IsZero = true →
        SetupWithManager.UpdateFunc e = true) ∧
    (∀ e2 : event.UpdateEvent,
        e2.MetaNew.GetDeletionTimestamp = e.MetaNew.GetDeletionTimestamp →
        SetupWithManager.UpdateFunc e2 = SetupWithManager.UpdateFunc e) ∧
    SetupWithManager.pred.UpdateFunc.map (fun f => f e)
      = some (SetupWithManager.UpdateFunc e) := by
  refine ⟨?_, ?_, ?_, ?_, rfl⟩
  · intro t ht hz
    simp [SetupWithManager.UpdateFunc, ht, metav1.Time.IsZero, hz]
  · intro hn
    simp [SetupWithManager.UpdateFunc, hn, metav1.Time.IsZero]
  · intro t ht hz
    simp [SetupWithManager.UpdateFunc, ht, metav1.Time.IsZero, hz]
  · intro e2 h
    simp [SetupWithManager.UpdateFunc, h]

/-- Claim C2 at concrete events: an update whose new version is marked for
deletion at second 63800000000 is rejected whether or not the old version was
marked, and updates whose new version has a nil or a zero timestamp are
allowed. -/
theorem UpdateFunc_decides_on_new_deletion_timestamp_witness :
    SetupWithManager.UpdateFunc (demoUpdate none (some ⟨⟨63800000000, 0⟩⟩)) = false ∧
    SetupWithManager.UpdateFunc
      (demoUpdate (some ⟨⟨63800000000, 0⟩⟩) (some ⟨⟨63800000000, 0⟩⟩)) = false ∧
    SetupWithManager.UpdateFunc (demoUpdate (some ⟨⟨63800000000, 0⟩⟩) none) = true ∧
    SetupWithManager.UpdateFunc (demoUpdate none (some ⟨⟨0, 0⟩⟩)) = true :=
  ⟨(UpdateFunc_decides_on_new_deletion_timestamp
      (demoUpdate none (some ⟨⟨63800000000, 0⟩⟩))).1 ⟨⟨63800000000, 0⟩⟩ rfl (by decide),
   (UpdateFunc_decides_on_new_deletion_timestamp
      (demoUpdate (some ⟨⟨63800000000, 0⟩⟩) (some ⟨⟨63800000000, 0⟩⟩))).1
      ⟨⟨63800000000, 0⟩⟩ rfl (by decide),
   (UpdateFunc_decides_on_new_deletion_timestamp
      (demoUpdate (some ⟨⟨63800000000, 0⟩⟩) none)).2.1 rfl,
   (UpdateFunc_decides_on_new_deletion_timestamp
      (demoUpdate none (some ⟨⟨0, 0⟩⟩))).2.2.1 ⟨⟨0, 0⟩⟩ rfl (by decide)⟩

/-- Claim C3. For every delete event, whatever object, metadata and deletion
timestamp it carries, the `DeleteFunc` of the predicate returns false. -/
theorem DeleteFunc_rejects_every_delete (e : event.DeleteEvent) :
    SetupWithManager.DeleteFunc e = false ∧
    SetupWithManager.pred.DeleteFunc.map (fun f => f e) = some false :=
  ⟨rfl, rfl⟩

/-- Claim C9. The predicate of `SetupWithManager` sets no `CreateFunc`, and it
allows every create event, whatever the state of the object. -/
theorem pred_allows_every_create (e : event.CreateEvent) :
    SetupWithManager.pred.CreateFunc.isNone = true ∧ SetupWithManager.pred.Create e = true :=
  ⟨rfl, rfl⟩

/-! ## The requeue decision -/

/-- Claim C1, as stated, fails. The fetch returns the instance, `SetupRBAC`
succeeds and `Deploy` succeeds reporting five seconds: the pass asks for a
requeue after those five seconds, which is not the thirty-second interval. -/
theorem Reconcile_requeue_is_not_fixed_thirty_seconds :
    (demoReconciler (some (demoInstance "quarkus"), none) none
        (5 * time.Second, none)).FetchKogitoRuntimeInstance
      demoRequest.NamespacedName [] = (some (demoInstance "quarkus"), none) ∧
    ((demoReconciler (some (demoInstance "quarkus"), none) none
        (5 * time.Second, none)).SetupRBAC demoRequest.Namespace []).1 = none ∧
    ((demoReconciler (some (demoInstance "quarkus"), none) none
        (5 * time.Second, none)).Deploy
      ((demoReconciler (some (demoInstance "quarkus"), none) none
        (5 * time.Second, none)).definition demoRequest (demoInstance "quarkus"))
      ((demoReconciler (some (demoInstance "quarkus"), none) none
        (5 * time.Second, none)).afterGetRuntime (demoInstance "quarkus"))
      ["serviceaccount/ns1"]).1 = (5 * time.Second, none) ∧
    0 < 5 * time.Second ∧
    ((demoReconciler (some (demoInstance "quarkus"), none) none
        (5 * time.Second, none)).Reconcile demoRequest []).err = none ∧
    ((demoReconciler (some (demoInstance "quarkus"), none) none
        (5 * time.Second, none)).Reconcile demoRequest []).result.Requeue = true ∧
    ((demoReconciler (some (demoInstance "quarkus"), none) none
        (5 * time.Second, none)).Reconcile demoRequest []).result.RequeueAfter
      = 5 * time.Second ∧
    ((demoReconciler (some (demoInstance "quarkus"), none) none
        (5 * time.Second, none)).Reconcile demoRequest []).result.RequeueAfter
      ≠ thirtySeconds := by
  refine ⟨rfl, rfl, rfl, ?_, rfl, rfl, rfl, ?_⟩ <;> decide

/-- Claim C1, amended. In every pass in which the fetch returns an instance,
`SetupRBAC` succeeds and `Deploy` succeeds reporting a positive delay `d`, the
result has `Requeue = true` and `RequeueAfter = d`, the value `Deploy`
reported, and the error is nil. -/
theorem Reconcile_requeue_carries_delegate_delay {σ : Type} (r : KogitoRuntimeReconciler σ)
    (req : ctrl.Request) (cluster : σ) (inst : KogitoRuntime) (d : time.Duration)
    (hf : r.FetchKogitoRuntimeInstance req.NamespacedName cluster = (some inst, none))
    (hr : (r.SetupRBAC req.Namespace cluster).1 = none)
    (hd : (r.Deploy (r.definition req inst) (r.afterGetRuntime inst)
          (r.SetupRBAC req.Namespace cluster).2).1
      = (d, none))
    (hpos : 0 < d) :
    (r.Reconcile req cluster).result.Requeue = true ∧
    (r.Reconcile req cluster).result.RequeueAfter = d ∧
    (r.Reconcile req cluster).err = none := by
  rw [Reconcile_of_deploy_positive r req cluster inst d hf hr hd hpos]
  exact ⟨rfl, rfl, rfl⟩

/-- Claim C1, amended, at the delays 5 s, 12 s and 300 s reported by `Deploy`:
each pass asks for a requeue after exactly the reported delay. -/
theorem Reconcile_requeue_carries_delegate_delay_witness :
    (((demoReconciler (some (demoInstance "quarkus"), none) none
        (5 * time.Second, none)).Reconcile demoRequest []).result.Requeue = true ∧
      ((demoReconciler (some (demoInstance "quarkus"), none) none
        (5 * time.Second, none)).Reconcile demoRequest []).result.RequeueAfter
        = 5 * time.Second ∧
      ((demoReconciler (some (demoInstance "quarkus"), none) none
        (5 * time.Second, none)).Reconcile demoRequest []).err = none) ∧
    (((demoReconciler (some (demoInstance "quarkus"), none) none
        (12 * time.Second, none)).Reconcile demoRequest []).result.Requeue = true ∧
      ((demoReconciler (some (demoInstance "quarkus"), none) none
        (12 * time.Second, none)).Reconcile demoRequest []).result.RequeueAfter
        = 12 * time.Second ∧
      ((demoReconciler (some (demoInstance "quarkus"), none) none
        (12 * time.Second, none)).Reconcile demoRequest []).err = none) ∧
    (((demoReconciler (some (demoInstance "quarkus"), none) none
        (300 * time.Second, none)).Reconcile demoRequest []).result.Requeue = true ∧
      ((demoReconciler (some (demoInstance "quarkus"), none) none
        (300 * time.Second, none)).Reconcile demoRequest []).result.RequeueAfter
        = 300 * time.Second ∧
      ((demoReconciler (some (demoInstance "quarkus"), none) none
        (300 * time.Second, none)).Reconcile demoRequest []).err = none) :=
  ⟨Reconcile_requeue_carries_delegate_delay _ demoRequest [] (demoInstance "quarkus")
      (5 * time.Second) rfl rfl rfl (by decide),
   Reconcile_requeue_carries_delegate_delay _ demoRequest [] (demoInstance "quarkus")
      (12 * time.Second) rfl rfl rfl (by decide),
   Reconcile_requeue_carries_delegate_delay _ demoRequest [] (demoInstance "quarkus")
      (300 * time.Second) rfl rfl rfl (by decide)⟩

/-- Claim C7. Whatever the three collaborators return, with any delay from
`Deploy`, zero and negative ones included: when the result of `Reconcile` has
`Requeue = true`, its `RequeueAfter` is strictly positive and the error is
nil. -/
theorem Reconcile_requeue_has_positive_delay {σ : Type} (r : KogitoRuntimeReconciler σ)
    (req : ctrl.Request) (cluster : σ)
    (h : (r.Reconcile req cluster).result.Requeue = true) :
    0 < (r.Reconcile req cluster).result.RequeueAfter ∧ (r.Reconcile req cluster).err = none := by
  unfold KogitoRuntimeReconciler.Reconcile at h ⊢
  simp only at h ⊢
  split at h
  · simp [ctrl.Result.zero] at h
  · split at h
    · simp [ctrl.Result.zero] at h
    · split at h
      · simp [ctrl.Result.zero] at h
      · split at h
        · simp [ctrl.Result.zero] at h
        · split at h
          · rename_i hfe _ _ hinst _ hre _ hde hpos
            simp [hfe, hinst, hre, hde, hpos]
          · simp [ctrl.Result.zero] at h

/-- Claim C7 at a concrete pass: `Deploy` reports 300 s, the pass asks for a
requeue, and the delay it carries is positive with a nil error. -/
theorem Reconcile_requeue_has_positive_delay_witness :
    ((demoReconciler (some (demoInstance "springboot"), none) none
        (300 * time.Second, none)).Reconcile demoRequest []).result.Requeue = true ∧
    0 < ((demoReconciler (some (demoInstance "springboot"), none) none
        (300 * time.Second, none)).Reconcile demoRequest []).result.RequeueAfter ∧
    ((demoReconciler (some (demoInstance "springboot"), none) none
        (300 * time.Second, none)).Reconcile demoRequest []).err = none :=
  ⟨rfl, Reconcile_requeue_has_positive_delay
    (demoReconciler (some (demoInstance "springboot"), none) none (300 * time.Second, none))
    demoRequest [] rfl⟩

/-! ## The probe selection -/

/-- Claim C5. For every request for which the fetch returns a nil instance and a
nil error, `Reconcile` returns the zero result (`Requeue = false`,
`RequeueAfter = 0`) with a nil error, no step of the pass is a call of
`SetupRBAC` or of `Deploy`, and the cluster is left as it was. -/
theorem Reconcile_not_found_short_circuit {σ : Type} (r : KogitoRuntimeReconciler σ)
    (req : ctrl.Request) (cluster : σ)
    (hf : r.FetchKogitoRuntimeInstance req.NamespacedName cluster = (none, none)) :
    (r.Reconcile req cluster).result.Requeue = false ∧
    (r.Reconcile req cluster).result.RequeueAfter = 0 ∧
    (r.Reconcile req cluster).err = none ∧
    (∀ s ∈ (r.Reconcile req cluster).trace, s.isSetupRBAC = false ∧ s.isDeploy = false) ∧
    (r.Reconcile req cluster).cluster = cluster := by
  rw [Reconcile_of_not_found r req cluster hf]
  refine ⟨rfl, rfl, rfl, ?_, rfl⟩
  intro s hs
  simp at hs
  rcases hs with hs | hs | hs <;> subst hs <;> exact ⟨rfl, rfl⟩

/-- Claim C5 at a concrete pass: the instance `svc-a` does not exist; the pass
returns the zero result and a nil error, takes three steps, none of them a
call of `SetupRBAC` or `Deploy`, and leaves the cluster empty. -/
theorem Reconcile_not_found_short_circuit_witness :
    ((demoReconciler (none, none) none (0, none)).Reconcile demoRequest []).result.Requeue
      = false ∧
    ((demoReconciler (none, none) none (0, none)).Reconcile demoRequest []).result.RequeueAfter
      = 0 ∧
    ((demoReconciler (none, none) none (0, none)).Reconcile demoRequest []).err = none ∧
    (∀ s ∈ ((demoReconciler (none, none) none (0, none)).Reconcile demoRequest []).trace,
      s.isSetupRBAC = false ∧ s.isDeploy = false) ∧
    ((demoReconciler (none, none) none (0, none)).Reconcile demoRequest []).cluster = [] :=
  Reconcile_not_found_short_circuit (demoReconciler (none, none) none (0, none))
    demoRequest [] rfl

/-- Claim C6. The first stage to fail decides the pass. When the fetch returns an
error `e`, the pass returns `e` and the zero result and calls neither
`SetupRBAC` nor `Deploy`. When the fetch returns an instance and `SetupRBAC`
returns `e`, the pass returns `e` and the zero result and does not call
`Deploy`. When both succeed and `Deploy` returns `e`, with whatever delay, the
pass returns `e` and the zero result. -/
theorem Reconcile_fails_fast {σ : Type} (r : KogitoRuntimeReconciler σ)
    (req : ctrl.Request) (cluster : σ) (e : GoError) :
    ((r.FetchKogitoRuntimeInstance req.NamespacedName cluster).2 = some e →
      (r.Reconcile req cluster).err = some e ∧
      (r.Reconcile req cluster).result = ctrl.Result.zero ∧
      (∀ s ∈ (r.Reconcile req cluster).trace, s.isSetupRBAC = false ∧ s.isDeploy = false) ∧
      (r.Reconcile req cluster).cluster = cluster) ∧
    (∀ inst, r.FetchKogitoRuntimeInstance req.NamespacedName cluster = (some inst, none) →
      (r.SetupRBAC req.Namespace cluster).1 = some e →
      (r.Reconcile req cluster).err = some e ∧
      (r.Reconcile req cluster).result = ctrl.Result.zero ∧
      (∀ s ∈ (r.Reconcile req cluster).trace, s.isDeploy = false) ∧
      (r.Reconcile req cluster).cluster = (r.SetupRBAC req.Namespace cluster).2) ∧
    (∀ inst, r.FetchKogitoRuntimeInstance req.NamespacedName cluster = (some inst, none) →
      (r.SetupRBAC req.Namespace cluster).1 = none →
      (r.Deploy (r.definition req inst) (r.afterGetRuntime inst)
          (r.SetupRBAC req.Namespace cluster).2).1.2
        = some e →
      (r.Reconcile req cluster).err = some e ∧
      (r.Reconcile req cluster).result = ctrl.Result.zero) := by
  refine ⟨?_, ?_, ?_⟩
  · intro hf
    rw [Reconcile_of_fetch_error r req cluster e hf]
    refine ⟨rfl, rfl, ?_, rfl⟩
    intro s hs
    simp at hs
    rcases hs with hs | hs <;> subst hs <;> exact ⟨rfl, rfl⟩
  · intro inst hf hr
    rw [Reconcile_of_rbac_error r req cluster inst e hf hr]
    refine ⟨rfl, rfl, ?_, rfl⟩
    intro s hs
    simp at hs
    rcases hs with hs | hs | hs <;> subst hs <;> rfl
  · intro inst hf hr hd
    rw [Reconcile_of_deploy_error r req cluster inst e hf hr hd]
    exact ⟨rfl, rfl⟩

/-- Claim C6 at three concrete passes: the fetch fails with `api down`;
`SetupRBAC` fails with `forbidden`; `Deploy` fails with `conflict` while
reporting 30 s. Each pass returns that error with the zero result, and the
later stages are not called. -/
theorem Reconcile_fails_fast_witness :
    (((demoReconciler (none, some "api down") none (0, none)).Reconcile demoRequest []).err
        = some "api down" ∧
      ((demoReconciler (none, some "api down") none (0, none)).Reconcile demoRequest []).result
        = ctrl.Result.zero ∧
      (∀ s ∈ ((demoReconciler (none, some "api down") none (0, none)).Reconcile
          demoRequest []).trace, s.isSetupRBAC = false ∧ s.isDeploy = false) ∧
      ((demoReconciler (none, some "api down") none (0, none)).Reconcile demoRequest []).cluster
        = []) ∧
    (((demoReconciler (some (demoInstance "quarkus"), none) (some "forbidden")
          (0, none)).Reconcile demoRequest []).err = some "forbidden" ∧
      ((demoReconciler (some (demoInstance "quarkus"), none) (some "forbidden")
          (0, none)).Reconcile demoRequest []).result = ctrl.Result.zero ∧
      (∀ s ∈ ((demoReconciler (some (demoInstance "quarkus"), none) (some "forbidden")
          (0, none)).Reconcile demoRequest []).trace, s.isDeploy = false) ∧
      ((demoReconciler (some (demoInstance "quarkus"), none) (some "forbidden")
          (0, none)).Reconcile demoRequest []).cluster
        = ((demoReconciler (some (demoInstance "quarkus"), none) (some "forbidden")
          (0, none)).SetupRBAC demoRequest.Namespace []).2) ∧
    (((demoReconciler (some (demoInstance "quarkus"), none) none
          (30 * time.Second, some "conflict")).Reconcile demoRequest []).err = some "conflict" ∧
      ((demoReconciler (some (demoInstance "quarkus"), none) none
          (30 * time.Second, some "conflict")).Reconcile demoRequest []).result
        = ctrl.Result.zero) :=
  ⟨(Reconcile_fails_fast (demoReconciler (none, some "api down") none (0, none))
      demoRequest [] "api down").1 rfl,
   (Reconcile_fails_fast (demoReconciler (some (demoInstance "quarkus"), none)
      (some "forbidden") (0, none)) demoRequest [] "forbidden").2.1
      (demoInstance "quarkus") rfl rfl,
   (Reconcile_fails_fast (demoReconciler (some (demoInstance "quarkus"), none) none
      (30 * time.Second, some "conflict")) demoRequest [] "conflict").2.2
      (demoInstance "quarkus") rfl rfl rfl⟩

/-! ## A converged resource -/

/-- Claim C8. In a pass in which the fetch returns an instance, `SetupRBAC`
succeeds and `Deploy` succeeds reporting a zero delay, `Reconcile` returns the
zero result with a nil error. A second pass run right after it, on the cluster
the first one left and under the same collaborator outcomes, returns the same.
Each pass takes exactly the steps log line, fetch, `SetupRBAC`, `Deploy`, and
the cluster it leaves is the one its `SetupRBAC` and `Deploy` calls return: the
driver changes nothing itself. So when those two calls leave the converged
cluster as it is, the cluster is the same before and after both passes. -/
theorem Reconcile_twice_on_converged {σ : Type} (r : KogitoRuntimeReconciler σ)
    (req : ctrl.Request) (cluster : σ) (inst inst2 : KogitoRuntime)
    (h1 : r.Converged req cluster inst)
    (h2 : r.Converged req (r.Reconcile req cluster).cluster inst2) :
    (r.Reconcile req cluster).result = ⟨false, 0⟩ ∧
    (r.Reconcile req cluster).err = none ∧
    (r.Reconcile req (r.Reconcile req cluster).cluster).result = ⟨false, 0⟩ ∧
    (r.Reconcile req (r.Reconcile req cluster).cluster).err = none ∧
    (r.Reconcile req cluster).trace = stepsToDeploy r req inst ∧
    (r.Reconcile req (r.Reconcile req cluster).cluster).trace = stepsToDeploy r req inst2 ∧
    (r.Reconcile req cluster).cluster = r.afterCalls req cluster inst ∧
    (r.Reconcile req (r.Reconcile req cluster).cluster).cluster
      = r.afterCalls req (r.afterCalls req cluster inst) inst2 ∧
    (r.afterCalls req cluster inst = cluster → r.afterCalls req cluster inst2 = cluster →
      (r.Reconcile req (r.Reconcile req cluster).cluster).cluster = cluster) := by
  obtain ⟨hf1, hr1, hd1⟩ := h1
  have e1 := Reconcile_of_deploy_done r req cluster inst 0 hf1 hr1 hd1 (le_refl 0)
  have hc : (r.Reconcile req cluster).cluster = r.afterCalls req cluster inst := by
    rw [e1]; rfl
  rw [hc] at h2 ⊢
  obtain ⟨hf2, hr2, hd2⟩ := h2
  have e2 := Reconcile_of_deploy_done r req (r.afterCalls req cluster inst) inst2 0
    hf2 hr2 hd2 (le_refl 0)
  rw [e1, e2]
  refine ⟨rfl, rfl, rfl, rfl, rfl, rfl, rfl, rfl, ?_⟩
  intro hid1 hid2
  show r.afterCalls req (r.afterCalls req cluster inst) inst2 = cluster
  rw [hid1, hid2]

/-- Claim C8 at a concrete converged cluster, which holds the service account of
`ns1` and the deployment of `svc-a`: both passes return the zero result with a
nil error and the cluster after the second pass is the one before the
first. -/
theorem Reconcile_twice_on_converged_witness :
    ((demoReconciler (some (demoInstance "quarkus"), none) none (0, none)).Reconcile
        demoRequest ["serviceaccount/ns1", "deployment/svc-a"]).result = ⟨false, 0⟩ ∧
    ((demoReconciler (some (demoInstance "quarkus"), none) none (0, none)).Reconcile
        demoRequest ["serviceaccount/ns1", "deployment/svc-a"]).err = none ∧
    ((demoReconciler (some (demoInstance "quarkus"), none) none (0, none)).Reconcile
        demoRequest
        ((demoReconciler (some (demoInstance "quarkus"), none) none (0, none)).Reconcile
          demoRequest ["serviceaccount/ns1", "deployment/svc-a"]).cluster).result
      = ⟨false, 0⟩ ∧
    ((demoReconciler (some (demoInstance "quarkus"), none) none (0, none)).Reconcile
        demoRequest
        ((demoReconciler (some (demoInstance "quarkus"), none) none (0, none)).Reconcile
          demoRequest ["serviceaccount/ns1", "deployment/svc-a"]).cluster).err = none ∧
    ((demoReconciler (some (demoInstance "quarkus"), none) none (0, none)).Reconcile
        demoRequest
        ((demoReconciler (some (demoInstance "quarkus"), none) none (0, none)).Reconcile
          demoRequest ["serviceaccount/ns1", "deployment/svc-a"]).cluster).cluster
      = ["serviceaccount/ns1", "deployment/svc-a"] :=
  have h := Reconcile_twice_on_converged
    (demoReconciler (some (demoInstance "quarkus"), none) none (0, none)) demoRequest
    ["serviceaccount/ns1", "deployment/svc-a"] (demoInstance "quarkus") (demoInstance "quarkus")
    ⟨rfl, rfl, rfl⟩ ⟨rfl, rfl, rfl⟩
  ⟨h.1, h.2.1, h.2.2.1, h.2.2.2.1, h.2.2.2.2.2.2.2.2 (by decide) (by decide)⟩

/-! ## The build image of the test framework -/

/-- For every image name and configuration, the image handed to
`ConvertImageToImageTag` takes `Domain`, `Namespace` and `Tag` from the
configured registry, namespace and version. -/
theorem getKogitoBuildImage_defaults (cfg : config) (imageName : String) :
    (getKogitoBuildImage.image cfg imageName).Domain = cfg.GetBuildImageRegistry ∧
    (getKogitoBuildImage.image cfg imageName).Namespace = cfg.GetBuildImageNamespace ∧
    (getKogitoBuildImage.image cfg imageName).Tag = cfg.GetBuildImageVersion := by
  unfold getKogitoBuildImage.image
  split <;> exact ⟨rfl, rfl, rfl⟩

/-- A string other than the empty one has a positive length. -/
theorem length_pos_of_ne_empty (s : String) (h : s ≠ "") : 0 < s.length := by
  cases s with
  | mk l =>
    cases l with
    | nil => exact absurd rfl h
    | cons c t => simp [String.length]

/-- With a suffix configured, the image is named `imageName-suffix`. -/
theorem getKogitoBuildImage_name_with_suffix (cfg : config) (imageName : String)
    (h : cfg.GetBuildImageNameSuffix ≠ "") :
    (getKogitoBuildImage.image cfg imageName).Name
      = imageName ++ "-" ++ cfg.GetBuildImageNameSuffix := by
  have hlen : cfg.GetBuildImageNameSuffix.length > 0 :=
    length_pos_of_ne_empty cfg.GetBuildImageNameSuffix h
  simp [getKogitoBuildImage.image, hlen]

/-- With no suffix configured, the image has the empty name, whatever
`imageName` is. -/
theorem getKogitoBuildImage_name_without_suffix (cfg : config) (imageName : String)
    (h : cfg.GetBuildImageNameSuffix = "") :
    (getKogitoBuildImage.image cfg imageName).Name = "" := by
  simp [getKogitoBuildImage.image, h]

/-- Claim C10 on the code. With no suffix configured and the image name
`kogito-builder`, the image handed to `ConvertImageToImageTag` has the empty
name, not `kogito-builder`; its other three fields are the configured
defaults. With the suffix `nightly` the name is `kogito-builder-nightly`. -/
theorem getKogitoBuildImage_drops_name_without_suffix :
    (demoConfig "").GetBuildImageNameSuffix = "" ∧
    getKogitoBuildImage.image (demoConfig "") "kogito-builder"
      = ⟨"quay.io", "kiegroup", "", "1.0"⟩ ∧
    (getKogitoBuildImage.image (demoConfig "") "kogito-builder").Name ≠ "kogito-builder" ∧
    getKogitoBuildImage.image (demoConfig "nightly") "kogito-builder"
      = ⟨"quay.io", "kiegroup", "kogito-builder-nightly", "1.0"⟩ := by
  refine ⟨rfl, ?_, ?_, ?_⟩ <;> decide

end RhpamKogito
